import Mathlib

/-!
Verification of the PDF rasterizer (`src/app.py`).

The development shallowly embeds the program's core in Lean:
* `fit_rect_keep_aspect` — the geometry helper (app.py lines 17-24),
  modelled over `ℚ` (Python floats become exact rationals of the literals).
* `encode_pixmap_to_jpeg` — the JPEG encoder with Pillow fallback
  (app.py lines 28-44); the external library calls (`pix.get_image_data`,
  `PIL.Image`) are supplied by an environment record.
* `rasterize_pdf_to_images_pdf` — the orchestrator (app.py lines 47-96),
  modelled as a function from an environment (filesystem / fitz behaviour)
  to a result together with a resource-accounting state.
-/

namespace PdfRasterizer

/-- An axis-aligned rectangle, the model of `fitz.Rect(x0, y0, x1, y1)`. -/
structure Rect where
  x0 : ℚ
  y0 : ℚ
  x1 : ℚ
  y1 : ℚ
deriving DecidableEq, Repr

def Rect.width (r : Rect) : ℚ := r.x1 - r.x0

def Rect.height (r : Rect) : ℚ := r.y1 - r.y0

/-- app.py lines 17-24: return a Rect that fits the image entirely inside the
page while keeping aspect ratio, centered. -/
def fit_rect_keep_aspect (img_w img_h : ℕ) (page_w page_h : ℚ) : Rect :=
  let scale := min (page_w / (img_w : ℚ)) (page_h / (img_h : ℚ))
  let w := (img_w : ℚ) * scale
  let h := (img_h : ℚ) * scale
  let x := (page_w - w) / 2
  let y := (page_h - h) / 2
  ⟨x, y, x + w, y + h⟩

/-- Modelled from the spec's words (§4.1): `scale = min(pageW/imgW, pageH/imgH)`,
`width = imgW*scale`, `height = imgH*scale`, `x = (pageW - width)/2`,
`y = (pageH - height)/2`, returning the rectangle `(x, y, x+width, y+height)`.
Used to compare the implementation against the specified formula. -/
def fit_rect_formula_spec (img_w img_h : ℕ) (page_w page_h : ℚ) : Rect :=
  let scale := min (page_w / (img_w : ℚ)) (page_h / (img_h : ℚ))
  let width := (img_w : ℚ) * scale
  let height := (img_h : ℚ) * scale
  ⟨(page_w - width) / 2, (page_h - height) / 2,
   (page_w - width) / 2 + width, (page_h - height) / 2 + height⟩

/-- app.py lines 13-14: A4 width in points (210 mm at 72 dpi). -/
def A4_WIDTH_PT : ℚ := 595.2755905511812

/-- app.py lines 13-14: A4 height in points (297 mm at 72 dpi). -/
def A4_HEIGHT_PT : ℚ := 841.8897637795277

/- ### Shared facts about the geometry helper -/

lemma fit_rect_x0 (img_w img_h : ℕ) (page_w page_h : ℚ) :
    (fit_rect_keep_aspect img_w img_h page_w page_h).x0 =
      (page_w - (img_w : ℚ) * min (page_w / (img_w : ℚ)) (page_h / (img_h : ℚ))) / 2 := rfl

lemma fit_rect_width (img_w img_h : ℕ) (page_w page_h : ℚ) :
    (fit_rect_keep_aspect img_w img_h page_w page_h).width =
      (img_w : ℚ) * min (page_w / (img_w : ℚ)) (page_h / (img_h : ℚ)) := by
  simp [fit_rect_keep_aspect, Rect.width]

lemma fit_rect_height (img_w img_h : ℕ) (page_w page_h : ℚ) :
    (fit_rect_keep_aspect img_w img_h page_w page_h).height =
      (img_h : ℚ) * min (page_w / (img_w : ℚ)) (page_h / (img_h : ℚ)) := by
  simp [fit_rect_keep_aspect, Rect.height]

lemma scale_pos {img_w img_h : ℕ} {page_w page_h : ℚ}
    (hiw : 0 < img_w) (hih : 0 < img_h) (hpw : 0 < page_w) (hph : 0 < page_h) :
    0 < min (page_w / (img_w : ℚ)) (page_h / (img_h : ℚ)) := by
  have h1 : (0 : ℚ) < (img_w : ℚ) := by exact_mod_cast hiw
  have h2 : (0 : ℚ) < (img_h : ℚ) := by exact_mod_cast hih
  exact lt_min (div_pos hpw h1) (div_pos hph h2)

lemma scaled_w_le (img_w img_h : ℕ) (page_w page_h : ℚ)
    (hiw : 0 < img_w) :
    (img_w : ℚ) * min (page_w / (img_w : ℚ)) (page_h / (img_h : ℚ)) ≤ page_w := by
  have h1 : (0 : ℚ) < (img_w : ℚ) := by exact_mod_cast hiw
  calc (img_w : ℚ) * min (page_w / (img_w : ℚ)) (page_h / (img_h : ℚ))
      ≤ (img_w : ℚ) * (page_w / (img_w : ℚ)) :=
        mul_le_mul_of_nonneg_left (min_le_left _ _) h1.le
    _ = page_w := by field_simp

lemma scaled_h_le (img_w img_h : ℕ) (page_w page_h : ℚ)
    (hih : 0 < img_h) :
    (img_h : ℚ) * min (page_w / (img_w : ℚ)) (page_h / (img_h : ℚ)) ≤ page_h := by
  have h2 : (0 : ℚ) < (img_h : ℚ) := by exact_mod_cast hih
  calc (img_h : ℚ) * min (page_w / (img_w : ℚ)) (page_h / (img_h : ℚ))
      ≤ (img_h : ℚ) * (page_h / (img_h : ℚ)) :=
        mul_le_mul_of_nonneg_left (min_le_right _ _) h2.le
    _ = page_h := by field_simp

/- ### Claim theorems for the geometry helper -/

/-- C1: for all positive image dimensions and positive page dimensions,
`fit_rect_keep_aspect` returns exactly the rectangle `(x, y, x+width, y+height)`
with `scale = min(pageW/imgW, pageH/imgH)`, `width = imgW*scale`,
`height = imgH*scale`, `x = (pageW-width)/2`, `y = (pageH-height)/2`; being a
pure Lean function it has no side effects. -/
theorem fit_rect_keep_aspect_matches_formula (img_w img_h : ℕ) (page_w page_h : ℚ)
    (hiw : 0 < img_w) (hih : 0 < img_h) (hpw : 0 < page_w) (hph : 0 < page_h) :
    fit_rect_keep_aspect img_w img_h page_w page_h =
      fit_rect_formula_spec img_w img_h page_w page_h := rfl

theorem fit_rect_keep_aspect_matches_formula_witness :
    0 < 2 ∧ 0 < 1 ∧ (0 : ℚ) < 10 ∧ (0 : ℚ) < 8 ∧
      fit_rect_keep_aspect 2 1 10 8 = fit_rect_formula_spec 2 1 10 8 :=
  ⟨by decide, by decide, by norm_num, by norm_num,
    fit_rect_keep_aspect_matches_formula 2 1 10 8 (by decide) (by decide)
      (by norm_num) (by norm_num)⟩

/-- C7: for positive inputs the rectangle is fully contained in
`[0, pageW] × [0, pageH]`. -/
theorem fit_rect_keep_aspect_contained (img_w img_h : ℕ) (page_w page_h : ℚ)
    (hiw : 0 < img_w) (hih : 0 < img_h) (hpw : 0 < page_w) (hph : 0 < page_h) :
    0 ≤ (fit_rect_keep_aspect img_w img_h page_w page_h).x0 ∧
    0 ≤ (fit_rect_keep_aspect img_w img_h page_w page_h).y0 ∧
    (fit_rect_keep_aspect img_w img_h page_w page_h).x1 ≤ page_w ∧
    (fit_rect_keep_aspect img_w img_h page_w page_h).y1 ≤ page_h := by
  have hs := scale_pos hiw hih hpw hph
  have hw := scaled_w_le img_w img_h page_w page_h hiw
  have hh := scaled_h_le img_w img_h page_w page_h hih
  have h1 : (0 : ℚ) < (img_w : ℚ) := by exact_mod_cast hiw
  have h2 : (0 : ℚ) < (img_h : ℚ) := by exact_mod_cast hih
  have hw0 : 0 ≤ (img_w : ℚ) * min (page_w / (img_w : ℚ)) (page_h / (img_h : ℚ)) :=
    (mul_pos h1 hs).le
  have hh0 : 0 ≤ (img_h : ℚ) * min (page_w / (img_w : ℚ)) (page_h / (img_h : ℚ)) :=
    (mul_pos h2 hs).le
  refine ⟨?_, ?_, ?_, ?_⟩ <;>
    simp only [fit_rect_keep_aspect] <;> linarith

theorem fit_rect_keep_aspect_contained_witness :
    0 < 3 ∧ 0 < 2 ∧ (0 : ℚ) < 7 ∧ (0 : ℚ) < 5 ∧
      (0 ≤ (fit_rect_keep_aspect 3 2 7 5).x0 ∧
       0 ≤ (fit_rect_keep_aspect 3 2 7 5).y0 ∧
       (fit_rect_keep_aspect 3 2 7 5).x1 ≤ 7 ∧
       (fit_rect_keep_aspect 3 2 7 5).y1 ≤ 5) :=
  ⟨by decide, by decide, by norm_num, by norm_num,
    fit_rect_keep_aspect_contained 3 2 7 5 (by decide) (by decide)
      (by norm_num) (by norm_num)⟩

/-- C8: for positive inputs the aspect ratio of the returned rectangle equals
the aspect ratio of the image, exactly over the rationals. -/
theorem fit_rect_keep_aspect_ratio (img_w img_h : ℕ) (page_w page_h : ℚ)
    (hiw : 0 < img_w) (hih : 0 < img_h) (hpw : 0 < page_w) (hph : 0 < page_h) :
    (fit_rect_keep_aspect img_w img_h page_w page_h).width /
      (fit_rect_keep_aspect img_w img_h page_w page_h).height =
      (img_w : ℚ) / (img_h : ℚ) := by
  have hs := scale_pos hiw hih hpw hph
  rw [fit_rect_width, fit_rect_height]
  rw [mul_comm (img_w : ℚ) _, mul_comm (img_h : ℚ) _]
  exact mul_div_mul_left _ _ (ne_of_gt hs)

theorem fit_rect_keep_aspect_ratio_witness :
    0 < 4 ∧ 0 < 3 ∧ (0 : ℚ) < 9 ∧ (0 : ℚ) < 6 ∧
      (fit_rect_keep_aspect 4 3 9 6).width / (fit_rect_keep_aspect 4 3 9 6).height
        = (4 : ℚ) / 3 :=
  ⟨by decide, by decide, by norm_num, by norm_num, by
    have h := fit_rect_keep_aspect_ratio 4 3 9 6 (by decide) (by decide)
      (by norm_num) (by norm_num)
    exact_mod_cast h⟩

/-- C10: for positive inputs the scaled image exactly fills the page on at
least one axis: the rectangle's width equals the page width or its height
equals the page height. -/
theorem fit_rect_keep_aspect_fills_one_axis (img_w img_h : ℕ) (page_w page_h : ℚ)
    (hiw : 0 < img_w) (hih : 0 < img_h) (hpw : 0 < page_w) (hph : 0 < page_h) :
    (fit_rect_keep_aspect img_w img_h page_w page_h).width = page_w ∨
    (fit_rect_keep_aspect img_w img_h page_w page_h).height = page_h := by
  have h1 : (img_w : ℚ) ≠ 0 := by exact_mod_cast hiw.ne'
  have h2 : (img_h : ℚ) ≠ 0 := by exact_mod_cast hih.ne'
  rcases min_choice (page_w / (img_w : ℚ)) (page_h / (img_h : ℚ)) with h | h
  · left
    rw [fit_rect_width, h]
    field_simp
  · right
    rw [fit_rect_height, h]
    field_simp

theorem fit_rect_keep_aspect_fills_one_axis_witness :
    0 < 1 ∧ 0 < 1 ∧ (0 : ℚ) < 3 ∧ (0 : ℚ) < 2 ∧
      ((fit_rect_keep_aspect 1 1 3 2).width = 3 ∨
       (fit_rect_keep_aspect 1 1 3 2).height = 2) :=
  ⟨by decide, by decide, by norm_num, by norm_num, by
    have h := fit_rect_keep_aspect_fills_one_axis 1 1 3 2 (by decide) (by decide)
      (by norm_num) (by norm_num)
    exact_mod_cast h⟩

/- ### Image encoder (app.py lines 27-44) -/

/-- The model of a `fitz.Pixmap`: pixel dimensions, number of colorspace
components (`pix.colorspace.n`, 1 for grayscale and 3 for RGB), and the raw
sample bytes (`pix.samples`). -/
structure Pixmap where
  width : ℕ
  height : ℕ
  colorspace_n : ℕ
  samples : List ℕ

/-- Environment for the encoder: behaviour of the two external libraries.
`primaryResult = some bytes` models `pix.get_image_data(output="jpeg", ...)`
returning `bytes`; `none` models it raising. `pillowAvailable` models
`Image is not None` (the `PIL` import succeeded). `pillowEncode` models the
Pillow round-trip `Image.frombytes(mode, (w, h), samples)` followed by
`img.save(buf, format="JPEG", quality=..., optimize=True)`, as a function of
the mode, dimensions, samples and quality. -/
structure EncEnv where
  primaryResult : Option (List ℕ)
  pillowAvailable : Bool
  pillowEncode : String → ℕ → ℕ → List ℕ → ℕ → List ℕ

/-- app.py lines 37-39: the message of the `RuntimeError` raised when the
primary path failed and Pillow is absent. -/
def pillow_missing_msg : String :=
  "PyMuPDF get_image_data not available; install Pillow (`pip install Pillow`) for fallback."

/-- Result of `encode_pixmap_to_jpeg`: the returned bytes or the raised error
message, together with whether the Pillow fallback encoding was attempted. -/
structure EncResult where
  result : Except String (List ℕ)
  fallbackAttempted : Bool

/-- app.py lines 28-44: encode a Pixmap to JPEG bytes; try PyMuPDF's
`get_image_data` first, fall back to Pillow if available, and raise a
`RuntimeError` naming Pillow if the fallback library is missing. -/
def encode_pixmap_to_jpeg (env : EncEnv) (pix : Pixmap) (quality : ℕ) : EncResult :=
  match env.primaryResult with
  | some bytes => ⟨Except.ok bytes, false⟩
  | none =>
      if env.pillowAvailable then
        let mode := if pix.colorspace_n = 1 then "L" else "RGB"
        ⟨Except.ok (env.pillowEncode mode pix.width pix.height pix.samples quality), true⟩
      else
        ⟨Except.error pillow_missing_msg, false⟩

/-- C9: when the primary JPEG encoding path fails and Pillow is unavailable,
`encode_pixmap_to_jpeg` fails with the configuration error whose message names
the missing dependency (Pillow), and the fallback encoding is not attempted. -/
theorem encode_pixmap_to_jpeg_missing_pillow (env : EncEnv) (pix : Pixmap) (quality : ℕ)
    (hp : env.primaryResult = none) (hl : env.pillowAvailable = false) :
    (encode_pixmap_to_jpeg env pix quality).result = Except.error pillow_missing_msg ∧
    (encode_pixmap_to_jpeg env pix quality).fallbackAttempted = false ∧
    (∃ pre post : String, pillow_missing_msg = pre ++ "Pillow" ++ post) := by
  refine ⟨?_, ?_, "PyMuPDF get_image_data not available; install ",
    " (`pip install Pillow`) for fallback.", rfl⟩ <;>
    simp [encode_pixmap_to_jpeg, hp, hl]

def encEnvNoPillow : EncEnv :=
  ⟨none, false, fun _ _ _ _ _ => []⟩

def pixSample : Pixmap := ⟨2, 1, 3, [0, 0, 0, 0, 0, 0]⟩

theorem encode_pixmap_to_jpeg_missing_pillow_witness :
    encEnvNoPillow.primaryResult = none ∧ encEnvNoPillow.pillowAvailable = false ∧
      ((encode_pixmap_to_jpeg encEnvNoPillow pixSample 60).result
          = Except.error pillow_missing_msg ∧
        (encode_pixmap_to_jpeg encEnvNoPillow pixSample 60).fallbackAttempted = false ∧
        (∃ pre post : String, pillow_missing_msg = pre ++ "Pillow" ++ post)) :=
  ⟨rfl, rfl, encode_pixmap_to_jpeg_missing_pillow encEnvNoPillow pixSample 60 rfl rfl⟩

/- ### Orchestrator (app.py lines 47-96) -/

/-- A filesystem path, split the way `pathlib.Path` exposes it: the directory,
the stem (name without the last extension) and the extension including its
leading dot (`Path.suffix`). The file name is `stem ++ ext`. -/
structure FsPath where
  dir : String
  stem : String
  ext : String
deriving DecidableEq, Repr

/-- One source page, carrying the pixmap the external renderer
(`page.get_pixmap(matrix=mat, colorspace=..., alpha=False)`) produces for it
at the configured dpi: pixel dimensions and raw samples. -/
structure SrcPage where
  pixWidth : ℕ
  pixHeight : ℕ
  samples : List ℕ

/-- The model of the opened source document: its `needs_pass` flag and its
ordered list of pages (`len(src)` pages, loaded by index). -/
structure SrcPdf where
  needs_pass : Bool
  pages : List SrcPage

/-- The distinct failure exits of `rasterize_pdf_to_images_pdf`, one
constructor per raise site / propagated exception. -/
inductive RunErr where
  | fileNotFound (msg : String)
  | invalidFormat (msg : String)
  | encrypted (msg : String)
  | encodeFailed (msg : String)
  | dstOpenFailed
  | saveFailed
deriving DecidableEq, Repr

/-- One page of the destination document: its dimensions (`dst.new_page`),
the rectangle the image was inserted at, and the inserted JPEG bytes. -/
structure OutPage where
  width : ℚ
  height : ℚ
  imageRect : Rect
  imageBytes : List ℕ
deriving DecidableEq

/-- Observable state of a run: how many times each document handle was opened
and closed, how many source pages were rendered to pixmaps, the pages appended
to the destination document, and the files written to disk (path together with
the saved document's pages). -/
structure RunState where
  srcOpens : ℕ
  srcCloses : ℕ
  dstOpens : ℕ
  dstCloses : ℕ
  renderedPages : ℕ
  outPages : List OutPage
  savedFiles : List (FsPath × List OutPage)

def initState : RunState := ⟨0, 0, 0, 0, 0, [], []⟩

/-- Environment of a run: whether the input path exists, the document behind
it, whether `fitz.open()` for the fresh destination succeeds, the encoder
environment, and whether `dst.save` succeeds. -/
structure Env where
  fileExists : Bool
  srcDoc : SrcPdf
  dstOpenOk : Bool
  encEnv : EncEnv
  saveOk : Bool

/-- Result of the per-page loop (app.py lines 78-89): the output pages built,
the number of pixmaps rendered, and the error message of the encoder exception
that aborted the loop, if any. -/
structure LoopResult where
  outPages : List OutPage
  rendered : ℕ
  err : Option String

/-- app.py lines 78-89: for each source page in order, render it to a pixmap,
encode the pixmap to JPEG, append a new `page_w × page_h` page to the
destination, and insert the image at the centered fit rectangle. An encoder
exception aborts the loop. -/
def renderPages (encEnv : EncEnv) (quality : ℕ) (grayscale : Bool)
    (page_w page_h : ℚ) : List SrcPage → LoopResult
  | [] => ⟨[], 0, none⟩
  | p :: rest =>
      let pix : Pixmap := ⟨p.pixWidth, p.pixHeight, if grayscale then 1 else 3, p.samples⟩
      match (encode_pixmap_to_jpeg encEnv pix quality).result with
      | Except.error msg => ⟨[], 1, some msg⟩
      | Except.ok bytes =>
          let rect := fit_rect_keep_aspect pix.width pix.height page_w page_h
          let tl := renderPages encEnv quality grayscale page_w page_h rest
          ⟨⟨page_w, page_h, rect, bytes⟩ :: tl.outPages, tl.rendered + 1, tl.err⟩

/-- Model of Python's `str.lower()` as applied to an extension: lowercase
every character. (Adequate for extensions, which are ASCII in practice.) -/
def strToLower (s : String) : String :=
  ⟨s.data.map Char.toLower⟩

/-- app.py line 59: `input_pdf.with_name(f"{input_pdf.stem} (01).pdf")` —
same directory, name = stem + " (01)" + the literal lowercase ".pdf". -/
def mkOutPath (input_pdf : FsPath) : FsPath :=
  ⟨input_pdf.dir, input_pdf.stem ++ " (01)", ".pdf"⟩

/-- app.py lines 65-93, the body of the `try` block: reject encrypted input,
pick the A4 page dimensions, run the per-page loop, and save the destination.
Returns the outcome, the loop result, and the list of files written. -/
def runBody (env : Env) (out_path : FsPath) (quality : ℕ)
    (grayscale a4_portrait : Bool) :
    Except RunErr FsPath × LoopResult × List (FsPath × List OutPage) :=
  if env.srcDoc.needs_pass then
    (Except.error (RunErr.encrypted "The input PDF is password-protected."), ⟨[], 0, none⟩, [])
  else
    let page_w := if a4_portrait then A4_WIDTH_PT else A4_HEIGHT_PT
    let page_h := if a4_portrait then A4_HEIGHT_PT else A4_WIDTH_PT
    let lr := renderPages env.encEnv quality grayscale page_w page_h env.srcDoc.pages
    match lr.err with
    | some msg => (Except.error (RunErr.encodeFailed msg), lr, [])
    | none =>
        if env.saveOk then
          (Except.ok out_path, lr, [(out_path, lr.outPages)])
        else
          (Except.error RunErr.saveFailed, lr, [])

/-- Outcome of a run: the returned path or raised error, and the observable
state. -/
structure RunResult where
  result : Except RunErr FsPath
  state : RunState

/-- app.py lines 47-96. The precondition checks run before anything is
opened. `src = fitz.open(input_pdf)` and `dst = fitz.open()` are both executed
before the `try` block is entered, so a failure opening the destination exits
with the source handle opened but never closed. Once both are open, the
`try/finally` guarantees `src.close()` and `dst.close()` run exactly once on
every exit of the body; the body itself performs no close.
(`dpi` only parametrizes the render matrix `fitz.Matrix(dpi/72, dpi/72)`
handed to the external renderer; the rendered pixmap dimensions are supplied
by the environment's source pages.) -/
def rasterize_pdf_to_images_pdf (env : Env) (input_pdf : FsPath)
    (dpi : ℕ) (quality : ℕ) (grayscale : Bool) (a4_portrait : Bool) : RunResult :=
  if ¬ env.fileExists then
    ⟨Except.error (RunErr.fileNotFound ("Input not found: " ++ input_pdf.stem ++ input_pdf.ext)),
      initState⟩
  else if strToLower input_pdf.ext ≠ ".pdf" then
    ⟨Except.error (RunErr.invalidFormat "Input must be a .pdf file"), initState⟩
  else
    let out_path := mkOutPath input_pdf
    if ¬ env.dstOpenOk then
      ⟨Except.error RunErr.dstOpenFailed, ⟨1, 0, 0, 0, 0, [], []⟩⟩
    else
      let b := runBody env out_path quality grayscale a4_portrait
      ⟨b.1, ⟨1, 1, 1, 1, b.2.1.rendered, b.2.1.outPages, b.2.2⟩⟩

/- ### Shared facts and fixtures for the orchestrator -/

lemma renderPages_primary_ok (encEnv : EncEnv) (bs : List ℕ)
    (h : encEnv.primaryResult = some bs) (quality : ℕ) (grayscale : Bool)
    (page_w page_h : ℚ) (pages : List SrcPage) :
    renderPages encEnv quality grayscale page_w page_h pages =
      ⟨pages.map (fun p =>
          ⟨page_w, page_h, fit_rect_keep_aspect p.pixWidth p.pixHeight page_w page_h, bs⟩),
        pages.length, none⟩ := by
  induction pages with
  | nil => rfl
  | cons p rest ih =>
      simp [renderPages, encode_pixmap_to_jpeg, h, ih]

def srcTwoPages : SrcPdf :=
  ⟨false, [⟨100, 50, [1, 2, 3]⟩, ⟨30, 60, [4, 5]⟩]⟩

def envHappy : Env :=
  ⟨true, srcTwoPages, true, ⟨some [7, 7], true, fun _ _ _ _ _ => []⟩, true⟩

def inputDoc : FsPath := ⟨"testdir", "report", ".pdf"⟩

/- ### Claim theorems for the orchestrator -/

/-- C2: for a valid input (existing, `.pdf`-suffixed, unencrypted, with the
libraries behaving: destination opens, the primary encoder returns bytes and
the save succeeds) the run succeeds, the destination document's pages are
exactly the source pages mapped in order to output pages (index 0..N-1), its
page count equals the input page count, and that document is what is saved. -/
theorem rasterize_pdf_to_images_pdf_preserves_pages (env : Env) (input_pdf : FsPath)
    (dpi quality : ℕ) (grayscale a4_portrait : Bool) (bs : List ℕ)
    (hex : env.fileExists = true)
    (hext : strToLower input_pdf.ext = ".pdf")
    (hpass : env.srcDoc.needs_pass = false)
    (hdst : env.dstOpenOk = true)
    (henc : env.encEnv.primaryResult = some bs)
    (hsave : env.saveOk = true) :
    (rasterize_pdf_to_images_pdf env input_pdf dpi quality grayscale a4_portrait).state.outPages
        = env.srcDoc.pages.map (fun p =>
            ⟨if a4_portrait then A4_WIDTH_PT else A4_HEIGHT_PT,
             if a4_portrait then A4_HEIGHT_PT else A4_WIDTH_PT,
             fit_rect_keep_aspect p.pixWidth p.pixHeight
               (if a4_portrait then A4_WIDTH_PT else A4_HEIGHT_PT)
               (if a4_portrait then A4_HEIGHT_PT else A4_WIDTH_PT), bs⟩) ∧
    (rasterize_pdf_to_images_pdf env input_pdf dpi quality grayscale a4_portrait).state.outPages.length
        = env.srcDoc.pages.length ∧
    (rasterize_pdf_to_images_pdf env input_pdf dpi quality grayscale a4_portrait).state.savedFiles
        = [(mkOutPath input_pdf,
            (rasterize_pdf_to_images_pdf env input_pdf dpi quality grayscale a4_portrait).state.outPages)] ∧
    (rasterize_pdf_to_images_pdf env input_pdf dpi quality grayscale a4_portrait).result
        = Except.ok (mkOutPath input_pdf) := by
  simp [rasterize_pdf_to_images_pdf, runBody, hex, hext, hpass, hdst, hsave,
    renderPages_primary_ok env.encEnv bs henc]

theorem rasterize_pdf_to_images_pdf_preserves_pages_witness :
    envHappy.fileExists = true ∧ strToLower inputDoc.ext = ".pdf" ∧
      envHappy.srcDoc.needs_pass = false ∧ envHappy.dstOpenOk = true ∧
      envHappy.encEnv.primaryResult = some [7, 7] ∧ envHappy.saveOk = true ∧
      ((rasterize_pdf_to_images_pdf envHappy inputDoc 144 60 false true).state.outPages.length
          = envHappy.srcDoc.pages.length ∧
        (rasterize_pdf_to_images_pdf envHappy inputDoc 144 60 false true).result
          = Except.ok (mkOutPath inputDoc)) := by
  have h := rasterize_pdf_to_images_pdf_preserves_pages envHappy inputDoc 144 60 false true
    [7, 7] rfl rfl rfl rfl rfl rfl
  exact ⟨rfl, rfl, rfl, rfl, rfl, rfl, h.2.1, h.2.2.2⟩

/-- C3: a password-protected input fails with the encrypted error before any
page is rendered, and nothing is saved to the would-be output path. -/
theorem rasterize_pdf_to_images_pdf_encrypted_rejected (env : Env) (input_pdf : FsPath)
    (dpi quality : ℕ) (grayscale a4_portrait : Bool)
    (hex : env.fileExists = true)
    (hext : strToLower input_pdf.ext = ".pdf")
    (hdst : env.dstOpenOk = true)
    (hpass : env.srcDoc.needs_pass = true) :
    (rasterize_pdf_to_images_pdf env input_pdf dpi quality grayscale a4_portrait).result
        = Except.error (RunErr.encrypted "The input PDF is password-protected.") ∧
    (rasterize_pdf_to_images_pdf env input_pdf dpi quality grayscale a4_portrait).state.renderedPages
        = 0 ∧
    (rasterize_pdf_to_images_pdf env input_pdf dpi quality grayscale a4_portrait).state.outPages
        = [] ∧
    (rasterize_pdf_to_images_pdf env input_pdf dpi quality grayscale a4_portrait).state.savedFiles
        = [] := by
  simp [rasterize_pdf_to_images_pdf, runBody, hex, hext, hdst, hpass]

def envEncrypted : Env :=
  ⟨true, ⟨true, [⟨10, 10, [0]⟩]⟩, true, ⟨some [7], true, fun _ _ _ _ _ => []⟩, true⟩

theorem rasterize_pdf_to_images_pdf_encrypted_rejected_witness :
    envEncrypted.fileExists = true ∧ strToLower inputDoc.ext = ".pdf" ∧
      envEncrypted.dstOpenOk = true ∧ envEncrypted.srcDoc.needs_pass = true ∧
      ((rasterize_pdf_to_images_pdf envEncrypted inputDoc 144 60 false true).result
          = Except.error (RunErr.encrypted "The input PDF is password-protected.") ∧
        (rasterize_pdf_to_images_pdf envEncrypted inputDoc 144 60 false true).state.savedFiles
          = []) := by
  have h := rasterize_pdf_to_images_pdf_encrypted_rejected envEncrypted inputDoc 144 60
    false true rfl rfl rfl rfl
  exact ⟨rfl, rfl, rfl, rfl, h.1, h.2.2.2⟩

/-- C4: a missing input fails with the not-found error and an existing input
with a non-`.pdf` extension (case-insensitively) fails with the format error;
both failures return the initial state, in which no document was ever opened,
and the existence check fires first (its branch does not look at the
extension). -/
theorem rasterize_pdf_to_images_pdf_precondition_checks (env : Env) (input_pdf : FsPath)
    (dpi quality : ℕ) (grayscale a4_portrait : Bool) :
    (env.fileExists = false →
      rasterize_pdf_to_images_pdf env input_pdf dpi quality grayscale a4_portrait
        = ⟨Except.error (RunErr.fileNotFound
            ("Input not found: " ++ input_pdf.stem ++ input_pdf.ext)), initState⟩) ∧
    (env.fileExists = true → strToLower input_pdf.ext ≠ ".pdf" →
      rasterize_pdf_to_images_pdf env input_pdf dpi quality grayscale a4_portrait
        = ⟨Except.error (RunErr.invalidFormat "Input must be a .pdf file"), initState⟩) ∧
    initState.srcOpens = 0 ∧ initState.dstOpens = 0 := by
  refine ⟨?_, ?_, rfl, rfl⟩
  · intro h
    simp [rasterize_pdf_to_images_pdf, h]
  · intro h h2
    simp [rasterize_pdf_to_images_pdf, h, h2]

def envMissingFile : Env :=
  ⟨false, ⟨false, []⟩, true, ⟨some [], true, fun _ _ _ _ _ => []⟩, true⟩

def txtPath : FsPath := ⟨"testdir", "notes", ".txt"⟩

theorem rasterize_pdf_to_images_pdf_precondition_checks_witness :
    envMissingFile.fileExists = false ∧ envHappy.fileExists = true ∧
      strToLower txtPath.ext ≠ ".pdf" ∧
      rasterize_pdf_to_images_pdf envMissingFile inputDoc 144 60 false true
        = ⟨Except.error (RunErr.fileNotFound
            ("Input not found: " ++ inputDoc.stem ++ inputDoc.ext)), initState⟩ ∧
      rasterize_pdf_to_images_pdf envHappy txtPath 144 60 false true
        = ⟨Except.error (RunErr.invalidFormat "Input must be a .pdf file"), initState⟩ := by
  refine ⟨rfl, rfl, by decide, ?_, ?_⟩
  · exact (rasterize_pdf_to_images_pdf_precondition_checks envMissingFile inputDoc
      144 60 false true).1 rfl
  · exact (rasterize_pdf_to_images_pdf_precondition_checks envHappy txtPath
      144 60 false true).2.1 rfl (by decide)

def envDstOpenFails : Env :=
  ⟨true, ⟨false, []⟩, false, ⟨some [7], true, fun _ _ _ _ _ => []⟩, true⟩

/-- C5 counterexample: when opening the destination document fails, the source
document was opened but is closed zero times — `src = fitz.open(...)` and
`dst = fitz.open()` both precede the `try` block, so this exit path skips the
`finally` cleanup. This refutes "both documents are each released exactly once
on every exit path, including a failure to open the second document". -/
theorem rasterize_pdf_to_images_pdf_c5_counterexample :
    (rasterize_pdf_to_images_pdf envDstOpenFails inputDoc 144 60 false true).state.srcOpens
        = 1 ∧
    ¬ ((rasterize_pdf_to_images_pdf envDstOpenFails inputDoc 144 60 false true).state.srcCloses
        = 1) := by
  constructor
  · rfl
  · intro h
    exact absurd h (by decide)

/-- C5 (amended): on every exit path after the precondition checks pass and
both documents are successfully opened — success, encrypted input, an encoder
exception, or a save failure — the source and destination documents are each
opened once and closed exactly once; when opening the destination fails, the
source is opened but never closed. -/
theorem rasterize_pdf_to_images_pdf_balanced_close (env : Env) (input_pdf : FsPath)
    (dpi quality : ℕ) (grayscale a4_portrait : Bool)
    (hex : env.fileExists = true)
    (hext : strToLower input_pdf.ext = ".pdf") :
    (env.dstOpenOk = true →
      (rasterize_pdf_to_images_pdf env input_pdf dpi quality grayscale a4_portrait).state.srcOpens
          = 1 ∧
      (rasterize_pdf_to_images_pdf env input_pdf dpi quality grayscale a4_portrait).state.srcCloses
          = 1 ∧
      (rasterize_pdf_to_images_pdf env input_pdf dpi quality grayscale a4_portrait).state.dstOpens
          = 1 ∧
      (rasterize_pdf_to_images_pdf env input_pdf dpi quality grayscale a4_portrait).state.dstCloses
          = 1) ∧
    (env.dstOpenOk = false →
      (rasterize_pdf_to_images_pdf env input_pdf dpi quality grayscale a4_portrait).state.srcOpens
          = 1 ∧
      (rasterize_pdf_to_images_pdf env input_pdf dpi quality grayscale a4_portrait).state.srcCloses
          = 0) := by
  constructor
  · intro hdst
    refine ⟨?_, ?_, ?_, ?_⟩ <;> simp [rasterize_pdf_to_images_pdf, hex, hext, hdst]
  · intro hdst
    refine ⟨?_, ?_⟩ <;> simp [rasterize_pdf_to_images_pdf, hex, hext, hdst]

theorem rasterize_pdf_to_images_pdf_balanced_close_witness :
    envEncrypted.fileExists = true ∧ strToLower inputDoc.ext = ".pdf" ∧
      envEncrypted.dstOpenOk = true ∧
      ((rasterize_pdf_to_images_pdf envEncrypted inputDoc 144 60 false true).state.srcOpens
          = 1 ∧
        (rasterize_pdf_to_images_pdf envEncrypted inputDoc 144 60 false true).state.srcCloses
          = 1 ∧
        (rasterize_pdf_to_images_pdf envEncrypted inputDoc 144 60 false true).state.dstOpens
          = 1 ∧
        (rasterize_pdf_to_images_pdf envEncrypted inputDoc 144 60 false true).state.dstCloses
          = 1) :=
  ⟨rfl, rfl, rfl,
    (rasterize_pdf_to_images_pdf_balanced_close envEncrypted inputDoc 144 60 false true
      rfl rfl).1 rfl⟩

def upperExtPath : FsPath := ⟨"testdir", "scan", ".PDF"⟩

def envEmptyDoc : Env :=
  ⟨true, ⟨false, []⟩, true, ⟨some [9], true, fun _ _ _ _ _ => []⟩, true⟩

/-- C6 counterexample: for the accepted input "scan.PDF" (the precondition is
case-insensitive) the run succeeds and returns "scan (01).pdf" — the
extension is the literal lowercase ".pdf", not the input's unchanged ".PDF".
This refutes "leaving the extension itself unchanged". -/
theorem rasterize_pdf_to_images_pdf_c6_counterexample :
    (rasterize_pdf_to_images_pdf envEmptyDoc upperExtPath 144 60 false true).result
        = Except.ok ⟨"testdir", "scan" ++ " (01)", ".pdf"⟩ ∧
    ¬ ((rasterize_pdf_to_images_pdf envEmptyDoc upperExtPath 144 60 false true).result
        = Except.ok ⟨"testdir", "scan" ++ " (01)", ".PDF"⟩) := by
  constructor
  · rfl
  · intro h
    rw [show (rasterize_pdf_to_images_pdf envEmptyDoc upperExtPath 144 60 false true).result
        = Except.ok ⟨"testdir", "scan" ++ " (01)", ".pdf"⟩ from rfl] at h
    simp only [Except.ok.injEq, FsPath.mk.injEq] at h
    exact absurd h.2.2 (by decide)

/-- C6 (amended): for every accepted input the computed output path (returned
on success) is in the input's directory with name stem ++ " (01)" ++ ".pdf":
the fixed disambiguation suffix is inserted before a literal lowercase ".pdf"
extension, which equals the input's extension exactly when that extension is
already the lowercase ".pdf". -/
theorem rasterize_pdf_to_images_pdf_out_path (env : Env) (input_pdf : FsPath)
    (dpi quality : ℕ) (grayscale a4_portrait : Bool) (bs : List ℕ)
    (hex : env.fileExists = true)
    (hext : strToLower input_pdf.ext = ".pdf")
    (hpass : env.srcDoc.needs_pass = false)
    (hdst : env.dstOpenOk = true)
    (henc : env.encEnv.primaryResult = some bs)
    (hsave : env.saveOk = true) :
    (rasterize_pdf_to_images_pdf env input_pdf dpi quality grayscale a4_portrait).result
        = Except.ok ⟨input_pdf.dir, input_pdf.stem ++ " (01)", ".pdf"⟩ ∧
    mkOutPath input_pdf = ⟨input_pdf.dir, input_pdf.stem ++ " (01)", ".pdf"⟩ ∧
    (input_pdf.ext = ".pdf" → (mkOutPath input_pdf).ext = input_pdf.ext) := by
  refine ⟨?_, rfl, ?_⟩
  · simp [rasterize_pdf_to_images_pdf, runBody, mkOutPath, hex, hext, hpass, hdst, hsave,
      renderPages_primary_ok env.encEnv bs henc]
  · intro h
    rw [h]
    rfl

theorem rasterize_pdf_to_images_pdf_out_path_witness :
    envHappy.fileExists = true ∧ strToLower inputDoc.ext = ".pdf" ∧
      envHappy.srcDoc.needs_pass = false ∧ envHappy.dstOpenOk = true ∧
      envHappy.encEnv.primaryResult = some [7, 7] ∧ envHappy.saveOk = true ∧
      (rasterize_pdf_to_images_pdf envHappy inputDoc 144 60 false true).result
        = Except.ok ⟨"testdir", "report" ++ " (01)", ".pdf"⟩ :=
  ⟨rfl, rfl, rfl, rfl, rfl, rfl,
    (rasterize_pdf_to_images_pdf_out_path envHappy inputDoc 144 60 false true [7, 7]
      rfl rfl rfl rfl rfl rfl).1⟩

end PdfRasterizer
